import Mathlib

/-!
Verification of the dingtalk-notion-sync repository.

This file is a shallow embedding, in Lean 4, of the core of the repository:
the reconciliation engine and loop guard (src/sync_service.py), the Notion
client's pure property builders/extractors and correlation lookup
(src/notion_client.py), and the webhook security layer (src/webhook_server.py).

Modelling conventions.

Service A is the DingTalk todo backend, Service B is Notion, as in the spec.

HTTP calls to the two backends are modelled at the call boundary: every
invocation of a client write method (create_todo_task, update_todo_task,
create_page, update_page) is recorded as a `BackendWrite` value carrying the
arguments the sync service passes to it.  Logger calls are recorded as
structured `LogEntry` values.  Pure helpers are translated directly.

Notion rich-text arrays are modelled by their concatenated plain text (the
only way `extract_plain_text` ever consumes them); `select`/`status`/`date`
property objects carry the optional name/start string that the corresponding
`extract_*` helper reads.

Values that the Python code obtains from the outside world during one
reconciliation pass (the configured user union id and database ids, the
wall-clock `datetime.now(timezone.utc).isoformat()`, the page id Notion
assigns to a created page, the task id DingTalk returns for a created task)
are fields of `SyncEnv`.  The two datetime codecs of the Python `datetime`
library (epoch-milliseconds to ISO string and back) are function fields of
`SyncEnv`: no claim inspects the textual format of a converted date, so every
theorem below is proved for all codecs, in particular the real ones.

The SHA1 primitive of Python's hashlib is likewise an explicit function
argument `sha1 : String → String` of the webhook definitions: the claims
concern the sort-concatenate-hash-compare structure and the control flow
around it, which this file proves for every hash function, hence for SHA-1.
Closed instances evaluate the pipeline at the concrete hash `hashId`.

Python string comparison (used by `last_synced >= page_last_edited` and by
`params.sort()`) is lexicographic on code points; `strLe`/`strGe` model it.
Python truthiness of an optional string (`if last_synced`, `if description`)
is modelled by `pyTruthy`; `str(None) = "None"` by `pyStr`.
-/

namespace DNSync

/-- Lexicographic code-point comparison of char lists, modelling Python's
string `<=` restricted to the way `list.sort` and `>=` use it. -/
def charsLe : List Char → List Char → Bool
  | [], _ => true
  | _ :: _, [] => false
  | a :: as, b :: bs => if a = b then charsLe as bs else decide (a.toNat < b.toNat)

/-- Python `a <= b` on strings (lexicographic by code point). -/
def strLe (a b : String) : Bool := charsLe a.data b.data

/-- Python `a >= b` on strings. -/
def strGe (a b : String) : Bool := strLe b a

/-- Insert a string into a sorted list, keeping earlier elements first on
ties, as Python's stable `list.sort` does. -/
def insertSorted (s : String) : List String → List String
  | [] => [s]
  | t :: ts => if strLe s t then s :: t :: ts else t :: insertSorted s ts

/-- Ascending stable sort of strings, modelling Python's `list.sort()`. -/
def sortStrings : List String → List String
  | [] => []
  | s :: ss => insertSorted s (sortStrings ss)

/-- Python `str(x)` on an optional string: `None` prints as "None". -/
def pyStr : Option String → String
  | none => "None"
  | some s => s

/-- Python truthiness of an optional string: `None` and the empty string are
falsy. -/
def pyTruthy : Option String → Bool
  | none => false
  | some s => s != ""

/-- A Notion property value as built by the `build_*_property` helpers of
NotionClient and consumed by its `extract_*` helpers.  Rich-text and title
arrays are represented by their concatenated plain text. -/
inductive PropValue
  | title (text : String)
  | richText (text : String)
  | date (start : Option String)
  | select (name : Option String)
  | status (name : Option String)
deriving DecidableEq, Repr

/-- A page's `properties` dict: property name to value, in insertion order. -/
abbrev Props := List (String × PropValue)

/-- Dict lookup in a `properties` object: `properties.get(name)`. -/
def lookupProp (props : Props) (name : String) : Option PropValue :=
  (props.find? (fun kv => kv.1 == name)).map (fun kv => kv.2)

/-- Models `extract_plain_text(prop.get('title', []))` (notion_client.py):
the empty string when the property is absent or not a title. -/
def extract_title_text : Option PropValue → String
  | some (.title s) => s
  | _ => ""

/-- Models `extract_plain_text(prop.get('rich_text', []))`: the empty string
when the property is absent or not rich text. -/
def extract_rich_text : Option PropValue → String
  | some (.richText s) => s
  | _ => ""

/-- Models `NotionClient.extract_date` (notion_client.py lines 256-261). -/
def extract_date : Option PropValue → Option String
  | some (.date d) => d
  | _ => none

/-- Models `NotionClient.extract_select` (notion_client.py lines 263-268). -/
def extract_select : Option PropValue → Option String
  | some (.select s) => s
  | _ => none

/-- Models `NotionClient.extract_status` (notion_client.py lines 270-275). -/
def extract_status : Option PropValue → Option String
  | some (.status s) => s
  | _ => none

/-- A Notion page as the sync service reads it: its id, its properties and
its server-side `last_edited_time`. -/
structure NotionPage where
  id : String
  properties : Props
  lastEditedTime : String
deriving DecidableEq, Repr

/-- The durable Notion state:  the pages of the personal todo database and of
the team task database. -/
structure NotionState where
  personal : List NotionPage
  team : List NotionPage
deriving DecidableEq, Repr

/-- Models `NotionClient.find_page_by_dingtalk_id` (notion_client.py lines
133-156): first page of the database whose property named
"DingTalk Task ID" is rich text equal to the given task id.  Note the
property NAME used here; the sync engine stores the correlation id under the
property named "釘釘任務ID" (sync_service.py line 452). -/
def find_page_by_dingtalk_id (pages : List NotionPage) (dingtalkTaskId : String) :
    Option NotionPage :=
  pages.find? fun p =>
    match lookupProp p.properties "DingTalk Task ID" with
    | some (.richText s) => s == dingtalkTaskId
    | _ => false

/-- Replace the value of a key in a properties dict, or append it (Python
dict update semantics of a Notion PATCH: supplied properties replace the
previous value, others are kept). -/
def upsertProp (props : Props) (kv : String × PropValue) : Props :=
  match props with
  | [] => [kv]
  | (k, v) :: rest => if k == kv.1 then (k, kv.2) :: rest else (k, v) :: upsertProp rest kv

/-- Apply a property update object to an existing properties dict. -/
def applyProps (old new : Props) : Props := new.foldl upsertProp old

/-- Effect of `NotionClient.update_page(page_id, properties)` on the durable
state: the page with that id has the supplied properties merged in. -/
def NotionState.updatePage (st : NotionState) (pageId : String) (props : Props) :
    NotionState :=
  { personal := st.personal.map fun p =>
      if p.id == pageId then { p with properties := applyProps p.properties props } else p,
    team := st.team.map fun p =>
      if p.id == pageId then { p with properties := applyProps p.properties props } else p }

/-- The external values a reconciliation pass reads: configuration
(`user_union_id`, the two database ids), the wall clock, the ids returned by
backend create calls, and the two datetime codecs of the Python datetime
library (whose textual output no claim inspects). -/
structure SyncEnv where
  userUnionId : String
  personalDbId : String
  teamDbId : String
  now : String
  freshPageId : String
  createdTaskId : String
  millisToIso : Nat → String
  isoToMillis : String → Nat

/-- The pages of the database with the given id (sync_service passes
`notion.personal_todo_db_id` or `notion.team_task_db_id`). -/
def NotionState.db (st : NotionState) (env : SyncEnv) (databaseId : String) :
    List NotionPage :=
  if databaseId == env.personalDbId then st.personal
  else if databaseId == env.teamDbId then st.team
  else []

/-- Effect of `NotionClient.create_page(database_id, properties)`: a new page
appended to that database. -/
def NotionState.createPage (st : NotionState) (env : SyncEnv) (databaseId : String)
    (page : NotionPage) : NotionState :=
  if databaseId == env.personalDbId then { st with personal := st.personal ++ [page] }
  else if databaseId == env.teamDbId then { st with team := st.team ++ [page] }
  else st

/-- One backend write call issued by the sync service, recorded with the
arguments passed to the client method. -/
inductive BackendWrite
  | dingtalkCreate (subject : String) (executorIds : List String) (dueTime : Option Nat)
      (description : String) (priority : Nat) (sourceId : String)
  | dingtalkUpdate (taskId : String) (subject : String) (dueTime : Option Nat)
      (description : String) (priority : Nat) (done : Bool)
  | notionCreate (databaseId : String) (properties : Props)
  | notionUpdate (pageId : String) (properties : Props)
deriving DecidableEq, Repr

/-- One logger call issued by the sync service or pollers, recorded in
structured form (constructor per call site). -/
inductive LogEntry
  | debugPageAlreadySynced (pageId : String)
  | infoCreatedDingtalkTask (taskId : String)
  | infoUpdatedDingtalkTask (taskId : String)
  | infoCreatedNotionPage (taskId : String)
  | infoUpdatedNotionPage (pageId : String)
  | infoMarkedDeleted (pageId : String)
  | warnNoNotionPage (taskId : String)
  | warnUnknownEventType (eventType : Option String)
  | errorPollDatabase (isPersonalTodo : Bool)
deriving DecidableEq, Repr

/-- The canonical task data `_extract_task_data_from_notion` returns
(sync_service.py lines 179-185). -/
structure TaskData where
  subject : String
  dueTime : Option Nat
  priority : Nat
  description : String
  done : Bool
deriving DecidableEq, Repr

/-- The inbound priority map of `_extract_task_data_from_notion`
(sync_service.py lines 163-168): the 3-level name map with `dict.get`
default 20. -/
def notion_priority_to_dingtalk (name : Option String) : Nat :=
  match name with
  | some s => if s = "高" then 40 else if s = "中" then 30 else if s = "低" then 20 else 20
  | none => 20

/-- The outbound priority map of `_build_notion_properties_from_dingtalk`
(sync_service.py lines 463-468): the 4-level value map with `dict.get`
default "普通". -/
def dingtalk_priority_to_notion (priority : Nat) : String :=
  if priority = 40 then "緊急"
  else if priority = 30 then "較高"
  else if priority = 20 then "普通"
  else if priority = 10 then "較低"
  else "普通"

/-- Models `SyncService._extract_task_data_from_notion` (sync_service.py
lines 145-185). -/
def extract_task_data_from_notion (env : SyncEnv) (props : Props) : TaskData :=
  let title := extract_title_text (lookupProp props "任務名稱")
  let dueDateStr := extract_date (lookupProp props "到期日")
  let dueTime : Option Nat :=
    match dueDateStr with
    | some s => if s != "" then some (env.isoToMillis s) else none
    | none => none
  let priority := notion_priority_to_dingtalk (extract_select (lookupProp props "優先級"))
  let notes := extract_rich_text (lookupProp props "備註")
  let done : Bool :=
    match extract_status (lookupProp props "狀態") with
    | some s => s == "已完成" || s == "完成" || s == "Done"
    | none => false
  { subject := title, dueTime := dueTime, priority := priority,
    description := notes, done := done }

/-- The decrypted DingTalk event's `taskData` object, with `dict.get`
optionality where the code uses it (`executorIds` defaults to `[]`). -/
structure DingTaskData where
  taskId : String
  creatorId : Option String
  executorIds : List String
  subject : Option String
  dueTime : Option Nat
  priority : Option Nat
  description : Option String
  done : Option Bool
deriving DecidableEq, Repr

/-- A decrypted DingTalk event: its `EventType` and its `taskData`. -/
structure DingEvent where
  eventType : Option String
  taskData : DingTaskData
deriving DecidableEq, Repr

/-- Models `SyncService._build_notion_properties_from_dingtalk`
(sync_service.py lines 439-489), including the Python truthiness guards on
`dueTime`, `priority` and `description`. -/
def build_notion_properties_from_dingtalk (env : SyncEnv) (td : DingTaskData)
    (taskId : String) : Props :=
  let base : Props :=
    [("任務名稱", .title (td.subject.getD "未命名任務")),
     ("釘釘任務ID", .richText taskId)]
  let withDue : Props :=
    match td.dueTime with
    | some t => if t != 0 then base ++ [("到期日", .date (some (env.millisToIso t)))] else base
    | none => base
  let withPrio : Props :=
    match td.priority with
    | some p =>
        if p != 0 then withDue ++ [("優先級", .select (some (dingtalk_priority_to_notion p)))]
        else withDue
    | none => withDue
  let withDesc : Props :=
    match td.description with
    | some d => if d != "" then withPrio ++ [("備註", .richText d)] else withPrio
    | none => withPrio
  withDesc ++
    [("狀態", .status (some (if td.done.getD false then "Done" else "To Do"))),
     ("上次同步", .date (some env.now))]

/-- Models `SyncService._create_dingtalk_task_from_notion` (sync_service.py
lines 187-231): the DingTalk create call followed by the writeback of the
returned task id and a fresh `上次同步` stamp onto the Notion page. -/
def create_dingtalk_task_from_notion (env : SyncEnv) (notionPageId : String)
    (td : TaskData) : List BackendWrite × List LogEntry :=
  ([.dingtalkCreate td.subject [env.userUnionId] td.dueTime td.description td.priority
      ("notion_" ++ notionPageId),
    .notionUpdate notionPageId
      [("釘釘任務ID", .richText env.createdTaskId), ("上次同步", .date (some env.now))]],
   [.infoCreatedDingtalkTask env.createdTaskId])

/-- Models `SyncService._update_dingtalk_task_from_notion` (sync_service.py
lines 233-269): the DingTalk update call followed by the refresh of
`上次同步` on the Notion page. -/
def update_dingtalk_task_from_notion (env : SyncEnv) (notionPageId : String)
    (dingtalkTaskId : String) (td : TaskData) : List BackendWrite × List LogEntry :=
  ([.dingtalkUpdate dingtalkTaskId td.subject td.dueTime td.description td.priority td.done,
    .notionUpdate notionPageId [("上次同步", .date (some env.now))]],
   [.infoUpdatedDingtalkTask dingtalkTaskId])

/-- Models `SyncService._sync_notion_to_dingtalk` (sync_service.py lines
94-143): the loop-guard comparison of `上次同步` against the page's
`last_edited_time` (Python string comparison, with Python truthiness on the
extracted optional date), then create-vs-update on the stored correlation id.
The `is_personal_todo` argument is never read by the source body. -/
def sync_notion_to_dingtalk (env : SyncEnv) (page : NotionPage)
    (_isPersonalTodo : Bool) : List BackendWrite × List LogEntry :=
  let dingtalkTaskId := extract_rich_text (lookupProp page.properties "釘釘任務ID")
  let lastSynced := extract_date (lookupProp page.properties "上次同步")
  if pyTruthy lastSynced && strGe (lastSynced.getD "") page.lastEditedTime then
    ([], [.debugPageAlreadySynced page.id])
  else
    let td := extract_task_data_from_notion env page.properties
    if dingtalkTaskId == "" then create_dingtalk_task_from_notion env page.id td
    else update_dingtalk_task_from_notion env page.id dingtalkTaskId td

/-- Models `SyncService._update_notion_from_dingtalk` (sync_service.py lines
418-437). -/
def update_notion_from_dingtalk (env : SyncEnv) (st : NotionState)
    (notionPageId : String) (td : DingTaskData) :
    NotionState × List BackendWrite × List LogEntry :=
  let props := build_notion_properties_from_dingtalk env td td.taskId
  (st.updatePage notionPageId props,
   [.notionUpdate notionPageId props],
   [.infoUpdatedNotionPage notionPageId])

/-- Models `SyncService._sync_dingtalk_to_notion` (sync_service.py lines
382-416): look the task id up in the target database through
`find_page_by_dingtalk_id`; update the found page, else create a new one. -/
def sync_dingtalk_to_notion (env : SyncEnv) (st : NotionState) (taskId : String)
    (td : DingTaskData) (databaseId : String) :
    NotionState × List BackendWrite × List LogEntry :=
  match find_page_by_dingtalk_id (st.db env databaseId) taskId with
  | some page => update_notion_from_dingtalk env st page.id td
  | none =>
      let props := build_notion_properties_from_dingtalk env td taskId
      (st.createPage env databaseId
         { id := env.freshPageId, properties := props, lastEditedTime := env.now },
       [.notionCreate databaseId props],
       [.infoCreatedNotionPage taskId])

/-- Models `SyncService._handle_task_create_event` (sync_service.py lines
291-319): the routing decision over membership of the configured union id in
`executorIds` and equality of `creatorId` with it. -/
def handle_task_create_event (env : SyncEnv) (st : NotionState) (ev : DingEvent) :
    NotionState × List BackendWrite × List LogEntry :=
  let td := ev.taskData
  let isAssignedToMe := td.executorIds.contains env.userUnionId
  let isCreatedByMe := td.creatorId == some env.userUnionId
  if isAssignedToMe && !isCreatedByMe then
    sync_dingtalk_to_notion env st td.taskId td env.personalDbId
  else if isCreatedByMe && !isAssignedToMe then
    sync_dingtalk_to_notion env st td.taskId td env.teamDbId
  else (st, [], [])

/-- Models `SyncService._handle_task_update_event` (sync_service.py lines
321-348): search personal then team; update the found page, else log a
warning and drop the event. -/
def handle_task_update_event (env : SyncEnv) (st : NotionState) (ev : DingEvent) :
    NotionState × List BackendWrite × List LogEntry :=
  let td := ev.taskData
  let page :=
    match find_page_by_dingtalk_id st.personal td.taskId with
    | some p => some p
    | none => find_page_by_dingtalk_id st.team td.taskId
  match page with
  | some p => update_notion_from_dingtalk env st p.id td
  | none => (st, [], [.warnNoNotionPage td.taskId])

/-- Models `SyncService._handle_task_delete_event` (sync_service.py lines
350-380): search personal then team; mark the found page's `狀態` as
"已刪除", else do nothing (no log call on the missing-page path). -/
def handle_task_delete_event (_env : SyncEnv) (st : NotionState) (ev : DingEvent) :
    NotionState × List BackendWrite × List LogEntry :=
  let td := ev.taskData
  let page :=
    match find_page_by_dingtalk_id st.personal td.taskId with
    | some p => some p
    | none => find_page_by_dingtalk_id st.team td.taskId
  match page with
  | some p =>
      (st.updatePage p.id [("狀態", .status (some "已刪除"))],
       [.notionUpdate p.id [("狀態", .status (some "已刪除"))]],
       [.infoMarkedDeleted p.id])
  | none => (st, [], [])

/-- Models `SyncService.handle_dingtalk_event` (sync_service.py lines
273-289): dispatch on `EventType`. -/
def handle_dingtalk_event (env : SyncEnv) (st : NotionState) (ev : DingEvent) :
    NotionState × List BackendWrite × List LogEntry :=
  if ev.eventType == some "todo_task_create" then handle_task_create_event env st ev
  else if ev.eventType == some "todo_task_update" then handle_task_update_event env st ev
  else if ev.eventType == some "todo_task_delete" then handle_task_delete_event env st ev
  else (st, [], [.warnUnknownEventType ev.eventType])

/-- The outside world of one poll cycle: the reply of
`get_recently_edited_pages` for each database (`none` models a raised
network/backend error) and the wall clock at the end of the cycle. -/
structure PollEnv where
  queryPersonal : Option (List NotionPage)
  queryTeam : Option (List NotionPage)
  nowIso : String

/-- Models `SyncService._poll_database_changes` (sync_service.py lines
72-92): on a query error, catch, log and return; on success, run
`_sync_notion_to_dingtalk` over the returned pages. -/
def poll_database_changes (env : SyncEnv) (qres : Option (List NotionPage))
    (isPersonalTodo : Bool) : List BackendWrite × List LogEntry :=
  match qres with
  | none => ([], [.errorPollDatabase isPersonalTodo])
  | some pages =>
      pages.foldl
        (fun acc p =>
          let r := sync_notion_to_dingtalk env p isPersonalTodo
          (acc.1 ++ r.1, acc.2 ++ r.2))
        ([], [])

/-- Models `SyncService._poll_notion_changes` (sync_service.py lines 53-70).
The single mutable field `self.last_poll_time` is the `lastPollTime`
argument; the result is, in order: the new value of that field (line 70
assigns `now` unconditionally), the `get_recently_edited_pages` queries
issued as (database id, since-timestamp) pairs, the backend writes and the
log entries of the cycle. -/
def poll_notion_changes (env : SyncEnv) (pe : PollEnv) (lastPollTime : String) :
    String × List (String × String) × List BackendWrite × List LogEntry :=
  let r1 := poll_database_changes env pe.queryPersonal true
  let r2 := poll_database_changes env pe.queryTeam false
  (pe.nowIso,
   [(env.personalDbId, lastPollTime), (env.teamDbId, lastPollTime)],
   r1.1 ++ r2.1,
   r1.2 ++ r2.2)

/-- The webhook request's URL query parameters (webhook_server.py lines
101-104). -/
structure QueryParams where
  signature : Option String
  timestamp : Option String
  nonce : Option String
deriving DecidableEq, Repr

/-- The webhook request's JSON body: the keys `handle_webhook` reads
(webhook_server.py lines 68, 79-80). -/
structure WebhookBody where
  encrypt : Option String
  timeStamp : Option String
  nonce : Option String
deriving DecidableEq, Repr

/-- Models `WebhookServer._generate_signature` (webhook_server.py lines
118-135): prepend the token, `str()` each argument, sort ascending, join and
hash.  The hash is an explicit argument standing for `hashlib.sha1(...)
.hexdigest()`; every theorem below holds for each choice of it. -/
def generate_signature (sha1 : String → String) (token : String)
    (args : List (Option String)) : String :=
  sha1 (String.join (sortStrings (token :: args.map pyStr)))

/-- Models `WebhookServer._verify_signature` (webhook_server.py lines
91-116), with its stray indentation resolved to the evident data flow: the
signature from the query parameters is compared with the signature generated
over (timestamp, nonce, encrypt).  Comparison with an absent signature is
Python `None == str`, i.e. false. -/
def verify_signature (sha1 : String → String) (token : String) (q : QueryParams)
    (b : WebhookBody) : Bool :=
  let computed := generate_signature sha1 token [q.timestamp, q.nonce, b.encrypt]
  match q.signature with
  | some s => s == computed
  | none => false

/-- The HTTP response `handle_webhook` produces: the JSON acknowledgment of
webhook_server.py lines 77-82, or the plain "ok" text of line 85. -/
inductive WebhookResponse
  | ack (msgSignature : String) (timeStamp : Option String) (nonce : Option String)
      (encrypt : String)
  | okText
deriving DecidableEq, Repr

/-- The observable outcome of one `handle_webhook` call: the value of the
signature check, the encrypted payload that was decrypted and dispatched to
`sync_service.handle_dingtalk_event` (if any), and the HTTP response. -/
structure WebhookOutcome where
  verified : Bool
  dispatched : Option String
  response : WebhookResponse
deriving DecidableEq, Repr

/-- Models `WebhookServer.handle_webhook` (webhook_server.py lines 46-89).
The source's verification step is defective: line 63 only logs a warning
when the check fails, and line 65 restates the check as an `if` whose suite
is empty, which is not even valid Python; in every reading of the observable
data flow the check's result does not gate processing, which is what this
definition renders.  When the body carries an `encrypt` payload the event is
decrypted, dispatched, and acknowledged with `_generate_signature` applied
to the single argument `encrypt_data` plus the body's `timeStamp` and
`nonce` keys; otherwise the handshake response "ok" is returned. -/
def handle_webhook (sha1 : String → String) (token : String) (q : QueryParams)
    (b : WebhookBody) : WebhookOutcome :=
  let v := verify_signature sha1 token q b
  match b.encrypt with
  | some e =>
      { verified := v,
        dispatched := some e,
        response := .ack (generate_signature sha1 token [some e]) b.timeStamp b.nonce e }
  | none => { verified := v, dispatched := none, response := .okText }

/-- The `msg_signature` field of an acknowledgment response. -/
def ackMsgSignature : WebhookResponse → Option String
  | .ack m _ _ _ => some m
  | .okText => none

/-- The `timeStamp` field of an acknowledgment response. -/
def ackTimeStamp : WebhookResponse → Option String
  | .ack _ t _ _ => t
  | .okText => none

/-- The `nonce` field of an acknowledgment response. -/
def ackNonce : WebhookResponse → Option String
  | .ack _ _ n _ => n
  | .okText => none

/-- A concrete hash instance for the closed evaluations below; the quantified
theorems hold for every hash, in particular SHA-1. -/
def hashId : String → String := fun s => s

/-- A concrete environment for closed evaluations. -/
def envW : SyncEnv :=
  { userUnionId := "me", personalDbId := "dbP", teamDbId := "dbT",
    now := "2024-06-01T12:00:00+00:00", freshPageId := "page-new",
    createdTaskId := "ding-new",
    millisToIso := fun n => toString n, isoToMillis := fun _ => 0 }

/-- The empty durable Notion state. -/
def stEmpty : NotionState := { personal := [], team := [] }

/-- Concrete query parameters carrying a signature that does not match. -/
def reqQuery1 : QueryParams :=
  { signature := some "badsig", timestamp := some "1700000000", nonce := some "nonce0" }

/-- Concrete request body with an encrypted payload; its `timeStamp` and
`nonce` keys agree with the query parameters of `reqQuery1`. -/
def reqBody1 : WebhookBody :=
  { encrypt := some "ENCBODY", timeStamp := some "1700000000", nonce := some "nonce0" }

/-- Concrete `todo_task_create` event assigned to the configured user by
someone else. -/
def tdC3 : DingTaskData :=
  { taskId := "t1", creatorId := some "boss", executorIds := ["me"],
    subject := some "Review doc", dueTime := none, priority := some 40,
    description := some "detail", done := some false }

/-- The event wrapping `tdC3`. -/
def evC3 : DingEvent := { eventType := some "todo_task_create", taskData := tdC3 }

/-- The Notion state after the first delivery of `evC3` to the empty state. -/
def stAfterFirst : NotionState :=
  (handle_dingtalk_event { envW with freshPageId := "p1" } stEmpty evC3).1

/-- Concrete task data of an event whose task id matches no record. -/
def tdGhost : DingTaskData :=
  { taskId := "ghost", creatorId := some "boss", executorIds := ["me"],
    subject := none, dueTime := none, priority := none, description := none,
    done := none }

/-- Concrete page whose `上次同步` stamp is later than its last edit. -/
def pageSynced : NotionPage :=
  { id := "pg1",
    properties := [("上次同步", .date (some "2024-06-05T00:00:00+00:00"))],
    lastEditedTime := "2024-06-04T00:00:00+00:00" }

/-- Poll environment of a cycle in which both queries succeed. -/
def peOk : PollEnv :=
  { queryPersonal := some [], queryTeam := some [],
    nowIso := "2024-06-02T00:00:00+00:00" }

/-- Poll environment of a cycle in which the personal database query raises. -/
def peFail : PollEnv :=
  { queryPersonal := none, queryTeam := some [],
    nowIso := "2024-06-02T00:00:00+00:00" }

/-! Theorems.  One main theorem per claim of the specification audit, with
witnesses for theorems that carry hypotheses, counterexamples for corrected
claims, and code evaluations at failing inputs for code bugs. -/

/-- Helper: every `notionCreate` write issued by `sync_dingtalk_to_notion`
targets the database that the call was routed to. -/
theorem sync_dingtalk_creates_only_in_db (env : SyncEnv) (st : NotionState)
    (taskId : String) (td : DingTaskData) (dbId : String) :
    ∀ d p, BackendWrite.notionCreate d p ∈ (sync_dingtalk_to_notion env st taskId td dbId).2.1 →
      d = dbId := by
  intro d p hmem
  unfold sync_dingtalk_to_notion at hmem
  cases hfind : find_page_by_dingtalk_id (st.db env dbId) taskId with
  | some pg =>
      rw [hfind] at hmem
      simp [update_notion_from_dingtalk] at hmem
  | none =>
      rw [hfind] at hmem
      simp only [List.mem_singleton, BackendWrite.notionCreate.injEq] at hmem
      exact hmem.1

/-- C1 (Loop Guard): for every canonical change (a polled Notion page, whose
`last_edited_time` is the change's `last_modified_at`) carrying a well-formed
(non-empty) optional `上次同步` stamp (the mirror's `last_synced_at`),
`_sync_notion_to_dingtalk` issues zero backend writes if and only if the
stamp is present and is greater than or equal to `last_modified_at` in the
string order the code compares with.  In particular a re-delivered change
whose stamp already covers its modification time produces zero backend
writes. -/
theorem C1_loop_guard (env : SyncEnv) (page : NotionPage) (b : Bool)
    (hts : extract_date (lookupProp page.properties "上次同步") ≠ some "") :
    (sync_notion_to_dingtalk env page b).1 = [] ↔
      ∃ s, extract_date (lookupProp page.properties "上次同步") = some s ∧
        strGe s page.lastEditedTime = true := by
  unfold sync_notion_to_dingtalk
  cases h : extract_date (lookupProp page.properties "上次同步") with
  | none =>
      simp only [h, pyTruthy, Bool.false_and, if_neg, Bool.false_eq_true,
        not_false_eq_true]
      constructor
      · intro hw
        exfalso
        revert hw
        split <;>
          simp [create_dingtalk_task_from_notion, update_dingtalk_task_from_notion]
      · rintro ⟨s, hs, -⟩
        exact absurd hs (by simp)
  | some s =>
      have hs : s ≠ "" := by
        intro h'
        exact hts (h' ▸ h)
      simp only [h, pyTruthy, Option.getD_some]
      rw [show (s != "") = true by simpa using hs]
      rw [Bool.true_and]
      by_cases hg : strGe s page.lastEditedTime = true
      · simp only [hg, if_true]
        constructor
        · intro _
          exact ⟨s, rfl, hg⟩
        · intro _
          trivial
      · rw [if_neg (by simpa using hg)]
        constructor
        · intro hw
          exfalso
          revert hw
          split <;>
            simp [create_dingtalk_task_from_notion, update_dingtalk_task_from_notion]
        · rintro ⟨s', hs', hg'⟩
          cases Option.some.injEq .. ▸ hs' with
          | refl => exact absurd hg' hg

/-- Witness for C1: a concrete page whose `上次同步` stamp (2024-06-05) is
at or after its last edit (2024-06-04) is suppressed with zero backend
writes. -/
theorem C1_loop_guard_witness :
    (sync_notion_to_dingtalk envW pageSynced true).1 = [] :=
  (C1_loop_guard envW pageSynced true (by decide)).mpr
    ⟨"2024-06-05T00:00:00+00:00", rfl, by decide⟩

/-- C2 (Routing matrix): for every inbound DingTalk create event the routing
over (is_assigned_to_self, is_created_by_self) is exactly (true, false) to
the personal collection, (false, true) to the team collection, and a no-op
with zero backend writes and an unchanged state in the (true, true) and
(false, false) cases; in the routed cases every page creation targets the
routed collection. -/
theorem C2_routing_matrix (env : SyncEnv) (st : NotionState) (ev : DingEvent) :
    (ev.taskData.executorIds.contains env.userUnionId = true →
      (ev.taskData.creatorId == some env.userUnionId) = false →
      handle_task_create_event env st ev =
        sync_dingtalk_to_notion env st ev.taskData.taskId ev.taskData env.personalDbId ∧
      ∀ d p, BackendWrite.notionCreate d p ∈ (handle_task_create_event env st ev).2.1 →
        d = env.personalDbId) ∧
    (ev.taskData.executorIds.contains env.userUnionId = false →
      (ev.taskData.creatorId == some env.userUnionId) = true →
      handle_task_create_event env st ev =
        sync_dingtalk_to_notion env st ev.taskData.taskId ev.taskData env.teamDbId ∧
      ∀ d p, BackendWrite.notionCreate d p ∈ (handle_task_create_event env st ev).2.1 →
        d = env.teamDbId) ∧
    (ev.taskData.executorIds.contains env.userUnionId =
        (ev.taskData.creatorId == some env.userUnionId) →
      handle_task_create_event env st ev = (st, [], [])) := by
  refine ⟨?_, ?_, ?_⟩
  · intro h1 h2
    have he : handle_task_create_event env st ev =
        sync_dingtalk_to_notion env st ev.taskData.taskId ev.taskData env.personalDbId := by
      unfold handle_task_create_event
      simp only [h1, h2, Bool.not_false, Bool.and_self, if_true]
    exact ⟨he, by
      rw [he]
      exact sync_dingtalk_creates_only_in_db env st ev.taskData.taskId ev.taskData
        env.personalDbId⟩
  · intro h1 h2
    have he : handle_task_create_event env st ev =
        sync_dingtalk_to_notion env st ev.taskData.taskId ev.taskData env.teamDbId := by
      unfold handle_task_create_event
      simp only [h1, h2, Bool.not_false, Bool.not_true, Bool.false_and, Bool.and_self,
        if_false, if_true, Bool.false_eq_true]
    exact ⟨he, by
      rw [he]
      exact sync_dingtalk_creates_only_in_db env st ev.taskData.taskId ev.taskData
        env.teamDbId⟩
  · intro h
    unfold handle_task_create_event
    cases h1 : ev.taskData.executorIds.contains env.userUnionId <;>
      rw [h1] at h <;>
      simp only [h1, ← h, Bool.not_false, Bool.not_true, Bool.false_and, Bool.and_false,
        if_false, Bool.false_eq_true]

/-- Witness for C2: a concrete self-assigned-to-self event (both booleans
true) is a no-op, and a concrete assigned-to-me event routes to the personal
collection. -/
theorem C2_routing_matrix_witness :
    handle_task_create_event envW stEmpty
      { eventType := some "todo_task_create",
        taskData := { tdC3 with creatorId := some "me" } } = (stEmpty, [], []) ∧
    handle_task_create_event envW stEmpty evC3 =
      sync_dingtalk_to_notion envW stEmpty tdC3.taskId tdC3 envW.personalDbId :=
  ⟨(C2_routing_matrix envW stEmpty
      { eventType := some "todo_task_create",
        taskData := { tdC3 with creatorId := some "me" } }).2.2 (by decide),
   ((C2_routing_matrix envW stEmpty evC3).1 (by decide) (by decide)).1⟩

/-- C3 (No double-creation under at-least-once delivery) — evaluation of the
code at the failing input.  Delivering the same create event twice to an
initially empty personal collection: the first delivery creates one page
and stores the task id under the property named "釘釘任務ID", but the
correlation lookup `find_page_by_dingtalk_id` filters on the property named
"DingTalk Task ID", so it does not find the page the engine itself stored;
the re-delivered event therefore issues a second `create_page` call and the
collection ends with two pages, where the claim requires an update of the
existing mirror and no second page. -/
theorem C3_double_creation :
    stAfterFirst.personal.length = 1 ∧
    (stAfterFirst.personal.map fun p => lookupProp p.properties "釘釘任務ID") =
      [some (.richText "t1")] ∧
    find_page_by_dingtalk_id stAfterFirst.personal "t1" = none ∧
    (handle_dingtalk_event { envW with freshPageId := "p2" } stAfterFirst evC3).1.personal.length
      = 2 ∧
    (handle_dingtalk_event { envW with freshPageId := "p2" } stAfterFirst evC3).2.1 =
      [.notionCreate "dbP"
        (build_notion_properties_from_dingtalk { envW with freshPageId := "p2" } tdC3 "t1")] := by
  refine ⟨rfl, rfl, rfl, rfl, rfl⟩

/-- C4 (Webhook signature check) — evaluation of the code at the failing
input.  For the concrete request `reqQuery1`/`reqBody1` whose supplied
signature "badsig" differs from the signature computed by the code's rule,
`_verify_signature` returns false, yet `handle_webhook` still decrypts and
dispatches the event and answers with an acknowledgment instead of a
rejection: the verification result is only logged (webhook_server.py line
63), and the rejecting `if` of line 65 has an empty suite.  For balance, a
request carrying exactly the computed signature does verify. -/
theorem C4_signature_not_enforced :
    verify_signature hashId "token0" reqQuery1 reqBody1 = false ∧
    (handle_webhook hashId "token0" reqQuery1 reqBody1).dispatched = some "ENCBODY" ∧
    (handle_webhook hashId "token0" reqQuery1 reqBody1).response ≠ WebhookResponse.okText ∧
    verify_signature hashId "token0"
      { reqQuery1 with
          signature := some (generate_signature hashId "token0"
            [reqQuery1.timestamp, reqQuery1.nonce, reqBody1.encrypt]) }
      reqBody1 = true := by
  refine ⟨rfl, rfl, by decide, rfl⟩

/-- C5 counterexample: for the concrete request `reqQuery1`/`reqBody1` (whose
body timeStamp and nonce equal the query's), the acknowledgment's
`msg_signature` is the signing rule applied to the encrypted body alone
("ENCBODYtoken0" under the concrete hash), which differs from the signing
rule applied to the three inputs timestamp, nonce and encrypted body
("1700000000ENCBODYnonce0token0"); the claim that the acknowledgment signs
the three inputs is therefore false at this input. -/
theorem C5_ack_signature_counterexample :
    ackMsgSignature (handle_webhook hashId "token0" reqQuery1 reqBody1).response =
      some "ENCBODYtoken0" ∧
    generate_signature hashId "token0"
      [reqQuery1.timestamp, reqQuery1.nonce, reqBody1.encrypt] =
      "1700000000ENCBODYnonce0token0" ∧
    ("ENCBODYtoken0" : String) ≠ "1700000000ENCBODYnonce0token0" := by
  refine ⟨rfl, rfl, by decide⟩

/-- C5 as amended: for every dispatched webhook event the acknowledgment's
`msg_signature` is the same signing rule (token prepended, ascending sort,
join, hash) applied to the single input `encrypted_body` — not to the three
inputs — and the response echoes the same encrypted body together with the
body's timeStamp and nonce. -/
theorem C5_ack_signature_amended (sha1 : String → String) (token : String)
    (q : QueryParams) (b : WebhookBody) (e : String) (h : b.encrypt = some e) :
    (handle_webhook sha1 token q b).response =
      .ack (generate_signature sha1 token [some e]) b.timeStamp b.nonce e := by
  unfold handle_webhook
  rw [h]

/-- Witness for the amended C5 at the concrete request. -/
theorem C5_ack_signature_amended_witness :
    (handle_webhook hashId "token0" reqQuery1 reqBody1).response =
      .ack (generate_signature hashId "token0" [some "ENCBODY"]) (some "1700000000")
        (some "nonce0") "ENCBODY" :=
  C5_ack_signature_amended hashId "token0" reqQuery1 reqBody1 "ENCBODY" rfl

/-- C6 counterexample: DingTalk priority 40 translates to the Notion label
"緊急" through the actual property-builder path, but extracting that label
back through `_extract_task_data_from_notion` yields the inbound map's
default 20, not 40 — "緊急" is not a key of the 3-level inbound map, so the
claimed round-trip of 40 is false. -/
theorem C6_priority_roundtrip_counterexample :
    dingtalk_priority_to_notion 40 = "緊急" ∧
    (extract_task_data_from_notion envW
        [("優先級", .select (some (dingtalk_priority_to_notion 40)))]).priority = 20 ∧
    (20 : Nat) ≠ 40 := by
  refine ⟨rfl, rfl, by decide⟩

/-- C6 as amended: the outbound map sends 40, 30, 20, 10 to the four labels
緊急, 較高, 普通, 較低, and the inbound map is the 3-level name map sending
高, 中, 低 to 40, 30, 20 with default 20 for any other name (緊急 included)
and for an absent name, so priority 40 round-trips to 20, not back to 40;
the extraction path computes its priority exactly through the inbound map. -/
theorem C6_priority_maps_amended :
    dingtalk_priority_to_notion 40 = "緊急" ∧
    dingtalk_priority_to_notion 30 = "較高" ∧
    dingtalk_priority_to_notion 20 = "普通" ∧
    dingtalk_priority_to_notion 10 = "較低" ∧
    notion_priority_to_dingtalk (some "高") = 40 ∧
    notion_priority_to_dingtalk (some "中") = 30 ∧
    notion_priority_to_dingtalk (some "低") = 20 ∧
    notion_priority_to_dingtalk (some "緊急") = 20 ∧
    notion_priority_to_dingtalk none = 20 ∧
    notion_priority_to_dingtalk (some (dingtalk_priority_to_notion 40)) = 20 ∧
    (∀ env props, (extract_task_data_from_notion env props).priority =
      notion_priority_to_dingtalk (extract_select (lookupProp props "優先級"))) := by
  refine ⟨rfl, rfl, rfl, rfl, rfl, rfl, rfl, rfl, rfl, rfl, fun env props => rfl⟩

/-- C7 counterexample: a concrete poll cycle issues its team-collection
query with the very watermark value the personal-collection query used
("2024-06-01..."), and the advance performed at the end of that cycle is the
value both collections' queries carry next cycle ("2024-06-02...") — so a
cycle of one collection does read and advance the watermark used by the
other, contradicting the claimed independence. -/
theorem C7_shared_cursor_counterexample :
    (poll_notion_changes envW peOk "2024-06-01T00:00:00+00:00").2.1 =
      [("dbP", "2024-06-01T00:00:00+00:00"), ("dbT", "2024-06-01T00:00:00+00:00")] ∧
    (poll_notion_changes envW { peOk with nowIso := "2024-06-03T00:00:00+00:00" }
        (poll_notion_changes envW peOk "2024-06-01T00:00:00+00:00").1).2.1 =
      [("dbP", "2024-06-02T00:00:00+00:00"), ("dbT", "2024-06-02T00:00:00+00:00")] := by
  refine ⟨rfl, rfl⟩

/-- C7 as amended: the two polled collections share the single watermark
`last_poll_time` — every poll cycle queries the personal and the team
database with that same value and then advances the shared watermark, once,
to the cycle's end-of-cycle clock. -/
theorem C7_shared_cursor_amended (env : SyncEnv) (pe : PollEnv) (c : String) :
    (poll_notion_changes env pe c).2.1 = [(env.personalDbId, c), (env.teamDbId, c)] ∧
    (poll_notion_changes env pe c).1 = pe.nowIso := by
  exact ⟨rfl, rfl⟩

/-- C8 counterexample: in a concrete poll cycle whose personal-collection
query fails, the cursor is still advanced (from "2024-06-01..." to the
cycle's "2024-06-02...") and the error is logged — the claim that the cursor
is not advanced on failure is false at this input. -/
theorem C8_cursor_advance_on_failure_counterexample :
    (poll_notion_changes envW peFail "2024-06-01T00:00:00+00:00").1 =
      "2024-06-02T00:00:00+00:00" ∧
    ("2024-06-02T00:00:00+00:00" : String) ≠ "2024-06-01T00:00:00+00:00" ∧
    LogEntry.errorPollDatabase true ∈
      (poll_notion_changes envW peFail "2024-06-01T00:00:00+00:00").2.2.2 := by
  refine ⟨rfl, by decide, by decide⟩

/-- C8 as amended: the cursor is advanced to the end-of-cycle clock at the
end of every poll cycle, whether or not a collection's query failed (the
failure is caught inside the per-database poll); a failed query is logged as
an error and contributes no backend writes to that cycle. -/
theorem C8_cursor_amended (env : SyncEnv) (pe : PollEnv) (c : String) :
    (poll_notion_changes env pe c).1 = pe.nowIso ∧
    (∀ isPersonal : Bool, poll_database_changes env none isPersonal =
      ([], [.errorPollDatabase isPersonal])) := by
  exact ⟨rfl, fun _ => rfl⟩

/-- C9 counterexample: a concrete delete event whose task id "ghost"
correlates to no record in either collection performs zero backend writes
but also logs nothing at all — the claimed warning is absent for delete
events (only the update handler logs one). -/
theorem C9_silent_delete_counterexample :
    handle_dingtalk_event envW stEmpty
      { eventType := some "todo_task_delete", taskData := tdGhost } =
      (stEmpty, [], []) := by
  rfl

/-- C9 as amended: for an update or delete event whose task id correlates to
no record in either collection (personal searched first, then team), zero
backend writes are performed and the state is unchanged, and an update event
never creates a record; the update handler logs the missing-mirror warning,
while the delete handler drops the event silently, logging nothing. -/
theorem C9_missing_mirror_amended (env : SyncEnv) (st : NotionState) (ev : DingEvent)
    (h1 : find_page_by_dingtalk_id st.personal ev.taskData.taskId = none)
    (h2 : find_page_by_dingtalk_id st.team ev.taskData.taskId = none) :
    handle_task_update_event env st ev =
      (st, [], [.warnNoNotionPage ev.taskData.taskId]) ∧
    handle_task_delete_event env st ev = (st, [], []) := by
  constructor
  · unfold handle_task_update_event
    simp only [h1, h2]
  · unfold handle_task_delete_event
    simp only [h1, h2]

/-- Witness for the amended C9 at a concrete missing-mirror update event. -/
theorem C9_missing_mirror_amended_witness :
    handle_task_update_event envW stEmpty
      { eventType := some "todo_task_update", taskData := tdGhost } =
      (stEmpty, [], [.warnNoNotionPage "ghost"]) :=
  (C9_missing_mirror_amended envW stEmpty
    { eventType := some "todo_task_update", taskData := tdGhost } rfl rfl).1

/-- C10 (acknowledgment fields come from the body): for every dispatched
webhook event the response's timeStamp and nonce are the body's `timeStamp`
and `nonce` keys — in particular `none` (JSON null) whenever those keys are
absent from the body — and the response does not depend on the query
parameters that carried the inbound timestamp and nonce. -/
theorem C10_ack_fields_from_body (sha1 : String → String) (token : String)
    (q q' : QueryParams) (b : WebhookBody) (e : String) (h : b.encrypt = some e) :
    ackTimeStamp (handle_webhook sha1 token q b).response = b.timeStamp ∧
    ackNonce (handle_webhook sha1 token q b).response = b.nonce ∧
    (handle_webhook sha1 token q b).response = (handle_webhook sha1 token q' b).response := by
  unfold handle_webhook
  rw [h]
  exact ⟨rfl, rfl, rfl⟩

/-- Witness for C10: a concrete request whose body has no timeStamp and no
nonce keys, while the query parameters do carry both, is acknowledged with
null timeStamp and nonce, and two different query-parameter sets produce the
same response. -/
theorem C10_ack_fields_from_body_witness :
    ackTimeStamp (handle_webhook hashId "token0" reqQuery1
        { encrypt := some "ENCBODY", timeStamp := none, nonce := none }).response = none ∧
    ackNonce (handle_webhook hashId "token0" reqQuery1
        { encrypt := some "ENCBODY", timeStamp := none, nonce := none }).response = none ∧
    (handle_webhook hashId "token0" reqQuery1
        { encrypt := some "ENCBODY", timeStamp := none, nonce := none }).response =
      (handle_webhook hashId "token0"
        { signature := none, timestamp := some "999", nonce := some "zzz" }
        { encrypt := some "ENCBODY", timeStamp := none, nonce := none }).response :=
  C10_ack_fields_from_body hashId "token0" reqQuery1
    { signature := none, timestamp := some "999", nonce := some "zzz" }
    { encrypt := some "ENCBODY", timeStamp := none, nonce := none } "ENCBODY" rfl

end DNSync
